import Mathlib

/-!
Shallow embedding of the ERA5 monthly-aggregates AOI climate processor
(src/advanced_era5_analyses.js).  Gridded images are modelled as partial
maps from a pixel index to a rational sample value (`none` = masked pixel),
image collections as lists of images tagged with the calendar year and
month of their timestamp, and the reduction primitives of the hosted platform
(pixel-wise mean / median / sum across a stack, areal mean over a region)
as pure functions on that model, following the collaborator contracts of
the specification.
-/

namespace ERA5

/-- A single-band raster: pixel index to sample value, `none` = masked. -/
abbrev Pix := Nat → Option ℚ

/-- Modelled from the spec: a gridded image of the external platform, reduced
to what this pipeline reads from it: the calendar year and month of its
timestamp (the `system:time_start` property as consumed by
`ee.Filter.calendarRange`) and its named bands. -/
structure EEImage where
  year : Int
  month : Nat
  bands : String → Pix

/-- Modelled from the spec: the values present (unmasked) at pixel `i` across
a stack of single-band images. -/
def pixValsAt (imgs : List Pix) (i : Nat) : List ℚ :=
  imgs.filterMap (fun p => p i)

/-- Modelled from the spec: pixel-wise sum across a stack
(`ee.ImageCollection.sum`); a pixel with no unmasked inputs stays masked. -/
def pixSum (imgs : List Pix) : Pix := fun i =>
  let vs := pixValsAt imgs i
  if vs.isEmpty then none else some vs.sum

/-- Modelled from the spec: pixel-wise arithmetic mean across a stack
(`ee.ImageCollection.mean`); a pixel with no unmasked inputs stays masked. -/
def pixMean (imgs : List Pix) : Pix := fun i =>
  let vs := pixValsAt imgs i
  if vs.isEmpty then none else some (vs.sum / vs.length)

/-- Median of a finite list of rationals: middle element of the sorted list,
the average of the two middle elements for an even count, `none` when empty. -/
def medianQ (vs : List ℚ) : Option ℚ :=
  let s := vs.insertionSort (· ≤ ·)
  if s.isEmpty then none
  else some ((s.getD ((s.length - 1) / 2) 0 + s.getD (s.length / 2) 0) / 2)

/-- Modelled from the spec: pixel-wise median across a stack
(`ee.ImageCollection.median`). -/
def pixMedian (imgs : List Pix) : Pix := fun i =>
  medianQ (pixValsAt imgs i)

/-- Modelled from the spec: the areal-mean spatial reduction primitive
(`reduceRegion` with `ee.Reducer.mean()`): mean of the unmasked pixel values
inside the region, `none` when no pixel of the region carries a value
(best-effort reduction; the `maxPixels` cap is a platform safety limit, not
a correctness constraint). -/
def reduceRegionMean (img : Pix) (region : List Nat) : Option ℚ :=
  let vs := region.filterMap img
  if vs.isEmpty then none else some (vs.sum / vs.length)

/-- An AOI geometry, abstracted to the set of elementary polygons it is made
of (opaque beyond supporting membership for spatial reduction). -/
abbrev Geom := List Nat

/-- Modelled from the spec: `ee.FeatureCollection.geometry()` — extracts and
merges the geometries of all features of the collection into one unified
geometry (the union of all features). -/
def fcGeometry (features : List Geom) : Geom := features.flatten

/-- `loadAOIGeometry` from the source: casts the asset reference to a
feature collection and returns its merged geometry.  The asset reference is
modelled by the list of feature geometries it resolves to. -/
def loadAOIGeometry (features : List Geom) : Geom := fcGeometry features

/-- The error kind the specification attributes to AOI resolution. -/
inductive AOIError where
  | invalidAOI
deriving DecidableEq

/-- `loadAOIGeometry` with an explicit error channel: the source function has
no failure path, so every input maps to a successful result. -/
def loadAOIGeometryE (features : List Geom) : Except AOIError Geom :=
  Except.ok (loadAOIGeometry features)

/-- The AOI resolver as the specification words it: fails with
`InvalidAOIError` when the reference resolves to zero geometries, otherwise
returns the single unified geometry. -/
def resolveSpec (features : List Geom) : Except AOIError Geom :=
  if features.isEmpty then Except.error AOIError.invalidAOI
  else Except.ok (fcGeometry features)

/-- `pad2` from the source: pads a month number to two digits. -/
def pad2 (m : Nat) : String := (if m < 10 then "0" else "") ++ toString m

/-- Zero-padding as the specification words it: the decimal form of `m`,
left-padded with a zero to two digits. -/
def pad2Spec (m : Nat) : String :=
  if (toString m).length < 2 then "0" ++ toString m else toString m

/-- JavaScript `String.prototype.toLowerCase` on the character contents. -/
def jsToLowerCase (s : String) : String := String.mk (s.data.map Char.toLower)

/-- `getClimMetric` from the source: lowercases the configured averaging
metric (already coerced to a string by the source) and returns `median`
exactly when the result is `median`, otherwise `mean`. -/
def getClimMetric (averagingMetric : String) : String :=
  if jsToLowerCase averagingMetric = "median" then "median" else "mean"

/-- `ee.List.sequence(1, 12)`: the calendar months. -/
def monthSeq : List Nat := (List.range 12).map (fun i => i + 1)

/-- A monthly climatology composite as built by the source: the reduced
image together with the `month`, `band` and `metric` properties set on it. -/
structure MonthComposite where
  month : Nat
  band : String
  metric : String
  pix : Pix

/-- `monthlyClimatology` from the source: for each calendar month 1..12,
filter the collection to that month, select the band, reduce the stack with
the median when the metric is `median` and with the mean otherwise, and
tag the composite with `month`, `band` and `metric`. -/
def monthlyClimatology (ic : List EEImage) (band metric : String) :
    List MonthComposite :=
  monthSeq.map (fun m =>
    let mcol := (ic.filter (fun im => im.month = m)).map (fun im => im.bands band)
    let composite := if metric = "median" then pixMedian mcol else pixMean mcol
    { month := m, band := band, metric := metric, pix := composite })

/-- `ee.List.sequence(START_YEAR, END_YEAR)`: the analysis years. -/
def yearSeq (a b : Int) : List Int :=
  (List.range (b + 1 - a).toNat).map (fun i : Nat => a + (i : Int))

/-- One record of the annual series: the year and the spatially reduced
value, `none` when the reduction yields no value. -/
structure AnnualRecord where
  year : Int
  value : Option ℚ
deriving DecidableEq

/-- The temporal reduction of the one-year stack inside `annualSeries`: filter
the collection to the calendar year, select the band, and reduce pixel-wise
with the sum when the method is `sum` and with the mean otherwise. -/
def yearImage (ic : List EEImage) (band method : String) (y : Int) : Pix :=
  let ycol := (ic.filter (fun im => im.year = y)).map (fun im => im.bands band)
  if method = "sum" then pixSum ycol else pixMean ycol

/-- `annualSeries` from the source: one record per year of
`ee.List.sequence(startYear, endYear)`, whose value is the areal mean over
the region of the temporally reduced image of that year. -/
def annualSeries (ic : List EEImage) (band method : String)
    (region : List Nat) (startYear endYear : Int) : List AnnualRecord :=
  (yearSeq startYear endYear).map (fun y =>
    { year := y, value := reduceRegionMean (yearImage ic band method y) region })

/-- The file base string built by `exportMonthlyRasters`:
the join of the pieces `ERA5_`, varLabel, `_`, metric, `_`, START_YEAR,
`-`, END_YEAR, `_M` and pad2(m). -/
def exportFileBase (varLabel metric : String) (startYear endYear m : Nat) :
    String :=
  "ERA5_" ++ varLabel ++ "_" ++ metric ++ "_" ++ toString startYear ++ "-"
    ++ toString endYear ++ "_M" ++ pad2 m

/-- Restriction of a raster to a geometry (`ee.Image.clip`). -/
def clipPix (p : Pix) (g : Geom) : Pix := fun i => if i ∈ g then p i else none

/-- The composite of a monthly climatology carrying the given `month` tag
(filtering the month tag and taking the first image); masked when absent. -/
def firstWithMonth (monthlyIC : List MonthComposite) (m : Nat) : Pix :=
  match (monthlyIC.filter (fun c => c.month = m)).head? with
  | some c => c.pix
  | none => fun _ => none

/-- One Drive export task as assembled by `exportMonthlyRasters`. -/
structure ExportJob where
  image : Pix
  description : String
  folder : String
  fileNamePrefix : String
  region : Geom

/-- `exportMonthlyRasters` from the source: for each month 1..12, take that
composite of that month, select the band, clip it to the AOI, and create an export
task whose description and file name prefix are the `exportFileBase` string. -/
def exportMonthlyRasters (monthlyIC : List MonthComposite) (band varLabel metric : String)
    (startYear endYear : Nat) (folder : String) (aoi : Geom) : List ExportJob :=
  monthSeq.map (fun m =>
    let img := clipPix (firstWithMonth monthlyIC m) aoi
    let fileBase := exportFileBase varLabel metric startYear endYear m
    { image := img, description := fileBase, folder := folder,
      fileNamePrefix := fileBase, region := aoi })

/-- The unit conversion mapped over `ERA5` to build `ERA5x`: precipitation
metres scaled by 1000 into `tp_mm`, the three temperature bands shifted by
−273.15 into Celsius, the wind components renamed unchanged, and the
timestamp copied from the input via copyProperties of system:time_start. -/
def convertERA5 (img : EEImage) : EEImage :=
  { year := img.year, month := img.month,
    bands := fun b =>
      if b = "tp_mm" then
        fun i => (img.bands "total_precipitation" i).map (fun v => v * 1000)
      else if b = "tmean_C" then
        fun i => (img.bands "mean_2m_air_temperature" i).map (fun v => v - 27315/100)
      else if b = "tmin_C" then
        fun i => (img.bands "minimum_2m_air_temperature" i).map (fun v => v - 27315/100)
      else if b = "tmax_C" then
        fun i => (img.bands "maximum_2m_air_temperature" i).map (fun v => v - 27315/100)
      else if b = "u10" then img.bands "u_component_of_wind_10m"
      else if b = "v10" then img.bands "v_component_of_wind_10m"
      else fun _ => none }

/-- Modelled from the spec: the non-null `(year, value)` pairs of an annual
series, as points for the trend-line fit. -/
def nonNullPairs (rs : List AnnualRecord) : List (ℚ × ℚ) :=
  rs.filterMap (fun r => r.value.map (fun v => ((r.year : ℚ), v)))

/-- Modelled from the spec: the least-squares linear fit
`(slope, intercept, R²)` that the chart collaborator is asked to draw
(the chart trendline request of type linear with showR2 set); the coefficient of
determination is 0 when fewer than two points exist (the spec leaves slope
and intercept unspecified there; they are returned as 0). -/
def linFit (ps : List (ℚ × ℚ)) : ℚ × ℚ × ℚ :=
  if ps.length < 2 then (0, 0, 0) else
  let n : ℚ := ps.length
  let sx := (ps.map (fun p => p.1)).sum
  let sy := (ps.map (fun p => p.2)).sum
  let sxx := (ps.map (fun p => p.1 * p.1)).sum
  let syy := (ps.map (fun p => p.2 * p.2)).sum
  let sxy := (ps.map (fun p => p.1 * p.2)).sum
  let vx := sxx - sx * sx / n
  let vy := syy - sy * sy / n
  let cxy := sxy - sx * sy / n
  let slope := cxy / vx
  let intercept := sy / n - slope * (sx / n)
  (slope, intercept, cxy * cxy / (vx * vy))

/-- Modelled from the spec: the trend line computed over an annual series. -/
def annualTrend (rs : List AnnualRecord) : ℚ × ℚ × ℚ :=
  linFit (nonNullPairs rs)

/-- Test fixture: one month of a synthetic precipitation series, constant
10 mm on the two pixels 0 and 1, timestamped in the year 2000. -/
def tpImage (m : Nat) : EEImage :=
  { year := 2000, month := m,
    bands := fun b i => if b = "tp_mm" ∧ i < 2 then some 10 else none }

/-- Test fixture: a full synthetic year of constant 10 mm precipitation. -/
def icTP : List EEImage := monthSeq.map tpImage

/-- Test fixture: one image of a two-image year, band `b` carrying 10 at
pixel 0. -/
def dupImage (k : Nat) : EEImage :=
  { year := 2000, month := k,
    bands := fun b i => if b = "b" ∧ i = 0 then some 10 else none }

/-- Test fixture: two images in the same year, distinguishing the pixel-wise
sum (20) from the pixel-wise mean (10). -/
def icTwo : List EEImage := [dupImage 1, dupImage 2]

/-- Test fixture: a raw ERA5 image with 0.001 m of precipitation, a
273.15 K mean temperature and a 5 m/s zonal wind at pixel 0. -/
def rawExample : EEImage :=
  { year := 1990, month := 1,
    bands := fun b _ =>
      if b = "total_precipitation" then some (1/1000)
      else if b = "mean_2m_air_temperature" then some (27315/100)
      else if b = "u_component_of_wind_10m" then some 5
      else none }

/-- Claim C1, counterexample: on a reference resolving to zero geometries the
AOI resolution of the source does not fail — it returns an (empty) unified
geometry, disagreeing with the specified `InvalidAOIError` failure. -/
theorem loadAOI_no_error_on_empty : loadAOIGeometryE [] ≠ resolveSpec [] := by
  simp [loadAOIGeometryE, resolveSpec]

/-- Claim C1, amended: AOI resolution never fails; for every asset reference
it returns the one unified geometry that is the union of all the features it
resolves to, and a reference resolving to zero geometries yields the empty
union rather than aborting the run. -/
theorem loadAOI_total_union (features : List Geom) :
    loadAOIGeometryE features = Except.ok (loadAOIGeometry features)
    ∧ (∀ p : Nat, p ∈ loadAOIGeometry features ↔ ∃ g ∈ features, p ∈ g)
    ∧ loadAOIGeometry [] = ([] : Geom) := by
  refine ⟨rfl, ?_, rfl⟩
  intro p
  simp [loadAOIGeometry, fcGeometry, List.mem_flatten]

/-- Claim C1, witness: the amended statement applied to a two-feature asset. -/
theorem loadAOI_total_union_witness :
    loadAOIGeometryE [[1, 2], [3]] = Except.ok (loadAOIGeometry [[1, 2], [3]]) :=
  (loadAOI_total_union [[1, 2], [3]]).1

/-- Claim C2: the file identifier of every export job is exactly
`ERA5_{varLabel}_{metric}_{startYear}-{endYear}_M{month:02d}` with a
zero-padded two-digit month, and the concrete instance for
varLabel TPmm, metric mean, startYear 1990, endYear 2020, month 3 is
`ERA5_TPmm_mean_1990-2020_M03`. -/
theorem exportFileId_contract (monthlyIC : List MonthComposite)
    (varLabel metric band folder : String) (startYear endYear : Nat) (aoi : Geom) :
    ((exportMonthlyRasters monthlyIC band varLabel metric startYear endYear folder aoi).map
        (fun j => j.fileNamePrefix)
      = monthSeq.map (exportFileBase varLabel metric startYear endYear))
    ∧ (∀ m : Nat, 1 ≤ m → m ≤ 12 →
        exportFileBase varLabel metric startYear endYear m
          = "ERA5_" ++ varLabel ++ "_" ++ metric ++ "_" ++ toString startYear ++ "-"
            ++ toString endYear ++ "_M" ++ pad2Spec m)
    ∧ exportFileBase "TPmm" "mean" 1990 2020 3 = "ERA5_TPmm_mean_1990-2020_M03" := by
  refine ⟨rfl, ?_, by decide⟩
  intro m h1 h2
  interval_cases m <;> rfl

/-- Claim C2, witness: the format statement applied at month 7. -/
theorem exportFileId_contract_witness :
    exportFileBase "X" "median" 2001 2002 7
      = "ERA5_" ++ "X" ++ "_" ++ "median" ++ "_" ++ toString 2001 ++ "-"
        ++ toString 2002 ++ "_M" ++ pad2Spec 7 :=
  (exportFileId_contract [] "X" "median" "b" "f" 2001 2002 []).2.1 7 (by decide) (by decide)

/-- Claim C3: for every series, band and metric, the monthly climatology has
exactly 12 composites whose month tags are exactly 1..12, in ascending order
with no duplicates, each tagged with the given band and metric. -/
theorem monthlyClimatology_tags (ic : List EEImage) (band metric : String) :
    ((monthlyClimatology ic band metric).map (fun c => c.month)
      = [1, 2, 3, 4, 5, 6, 7, 8, 9, 10, 11, 12])
    ∧ (∀ c, c ∈ monthlyClimatology ic band metric → c.band = band ∧ c.metric = metric) := by
  refine ⟨rfl, ?_⟩
  intro c hc
  simp only [monthlyClimatology, List.mem_map] at hc
  obtain ⟨m, _, rfl⟩ := hc
  exact ⟨rfl, rfl⟩

/-- Claim C3, witness: tag list and tagging of the month-1 composite of a
concrete (empty) series. -/
theorem monthlyClimatology_tags_witness :
    (⟨1, "tp_mm", "mean", pixMean []⟩ : MonthComposite).band = "tp_mm"
    ∧ (⟨1, "tp_mm", "mean", pixMean []⟩ : MonthComposite).metric = "mean" :=
  (monthlyClimatology_tags [] "tp_mm" "mean").2 ⟨1, "tp_mm", "mean", pixMean []⟩
    (List.mem_map.mpr ⟨1, by decide, rfl⟩)

/-- Claim C5: the unit converter scales the raw precipitation band by exactly
1000 into `tp_mm`, shifts each raw temperature band by exactly −273.15 into
Celsius, passes the wind components through unchanged apart from renaming,
and on concrete inputs maps 0.001 m of precipitation to 1.0 mm, 273.15 K to
0.0 °C and a 5 m/s wind to itself. -/
theorem convert_units (img : EEImage) (i : Nat) :
    ((convertERA5 img).bands "tp_mm" i
      = (img.bands "total_precipitation" i).map (fun v => v * 1000))
    ∧ ((convertERA5 img).bands "tmean_C" i
      = (img.bands "mean_2m_air_temperature" i).map (fun v => v - 27315/100))
    ∧ ((convertERA5 img).bands "tmin_C" i
      = (img.bands "minimum_2m_air_temperature" i).map (fun v => v - 27315/100))
    ∧ ((convertERA5 img).bands "tmax_C" i
      = (img.bands "maximum_2m_air_temperature" i).map (fun v => v - 27315/100))
    ∧ ((convertERA5 img).bands "u10" i = img.bands "u_component_of_wind_10m" i)
    ∧ ((convertERA5 img).bands "v10" i = img.bands "v_component_of_wind_10m" i)
    ∧ (convertERA5 rawExample).bands "tp_mm" 0 = some 1
    ∧ (convertERA5 rawExample).bands "tmean_C" 0 = some 0
    ∧ (convertERA5 rawExample).bands "u10" 0 = some 5 := by
  refine ⟨rfl, rfl, rfl, rfl, rfl, rfl, ?_, ?_, rfl⟩
  · show Option.map (fun v => v * 1000) (some ((1 : ℚ)/1000)) = some 1
    norm_num
  · show Option.map (fun v => v - 27315/100) (some ((27315 : ℚ)/100)) = some 0
    norm_num

/-- Claim C8: the converted image carries the original acquisition timestamp
metadata of the input unchanged (the calendar year and month that later
grouping reads), and the conversion is a pure function that leaves its
input untouched. -/
theorem convert_preserves_timestamp (img : EEImage) :
    (convertERA5 img).year = img.year ∧ (convertERA5 img).month = img.month :=
  ⟨rfl, rfl⟩

/-- Claim C9: metric selection is total — every configured string whose
lowercased form is not `median` selects `mean`, and `median` is
recognized case-insensitively. -/
theorem getClimMetric_spec :
    (∀ s : String, jsToLowerCase s ≠ "median" → getClimMetric s = "mean")
    ∧ (∀ s : String, jsToLowerCase s = "median" → getClimMetric s = "median") := by
  constructor <;> intro s h <;> simp [getClimMetric, h]

/-- Claim C9, witness: an arbitrary invalid string selects the mean and an
upper-case `MEDIAN` selects the median. -/
theorem getClimMetric_spec_witness :
    getClimMetric "rubbish" = "mean" ∧ getClimMetric "MEDIAN" = "median" :=
  ⟨getClimMetric_spec.1 "rubbish" (by decide), getClimMetric_spec.2 "MEDIAN" (by decide)⟩

/-- Every member of the annual series carries the areal mean of the
temporally reduced image of its year. -/
theorem annualSeries_mem_value (ic : List EEImage) (band method : String)
    (region : List Nat) (startYear endYear : Int) :
    ∀ r ∈ annualSeries ic band method region startYear endYear,
      r.value = reduceRegionMean (yearImage ic band method r.year) region := by
  intro r hr
  simp only [annualSeries, List.mem_map] at hr
  obtain ⟨y, _, rfl⟩ := hr
  rfl

/-- Mapping a no-value function over any pixel list keeps nothing. -/
theorem filterMap_const_none (l : List Nat) :
    l.filterMap (fun _ => (none : Option ℚ)) = [] := by
  induction l with
  | nil => rfl
  | cons a t ih => simp [List.filterMap_cons, ih]

/-- The year sequence lists exactly the years of the inclusive interval. -/
theorem yearSeq_mem (a b y : Int) : y ∈ yearSeq a b ↔ a ≤ y ∧ y ≤ b := by
  unfold yearSeq
  rw [List.mem_map]
  constructor
  · rintro ⟨i, hi, rfl⟩
    rw [List.mem_range] at hi
    omega
  · rintro ⟨h1, h2⟩
    refine ⟨(y - a).toNat, ?_, by omega⟩
    rw [List.mem_range]
    omega

/-- The year sequence is strictly ascending. -/
theorem yearSeq_sorted (a b : Int) : (yearSeq a b).Sorted (· < ·) := by
  unfold yearSeq
  rw [List.Sorted, List.pairwise_map]
  exact (List.sorted_lt_range _).imp (fun h => by omega)

/-- A one-year interval produces the one-element year sequence. -/
theorem yearSeq_single (a : Int) : yearSeq a a = [a] := by
  norm_num [yearSeq, List.range_succ]

/-- Claim C4: the annual series has exactly one record per year of
`[startYear, endYear]` (years in that inclusive interval, in strictly
ascending order), the value of every record is the areal mean over the AOI of the
pixel-wise temporal reduction of the images of its year, and a full synthetic year
of constant 10 mm monthly precipitation yields 120 under the sum method. -/
theorem annualSeries_contract (ic : List EEImage) (band method : String)
    (region : List Nat) (startYear endYear : Int) :
    ((annualSeries ic band method region startYear endYear).map (fun r => r.year)
      = yearSeq startYear endYear)
    ∧ (∀ y : Int, y ∈ yearSeq startYear endYear ↔ startYear ≤ y ∧ y ≤ endYear)
    ∧ (yearSeq startYear endYear).Sorted (· < ·)
    ∧ (∀ r ∈ annualSeries ic band method region startYear endYear,
        r.value = reduceRegionMean (yearImage ic band method r.year) region)
    ∧ annualSeries icTP "tp_mm" "sum" [0, 1] 2000 2000 = [⟨2000, some 120⟩] := by
  refine ⟨?_, fun y => yearSeq_mem startYear endYear y,
    yearSeq_sorted startYear endYear,
    annualSeries_mem_value ic band method region startYear endYear, ?_⟩
  · simp [annualSeries, List.map_map, Function.comp_def]
  · simp [annualSeries, yearSeq_single, yearImage, icTP, monthSeq, tpImage,
      pixSum, pixValsAt, reduceRegionMean, List.range_succ, List.filterMap]
    norm_num

/-- Claim C4, witness: year membership of the interval applied at 2003 in
[2000, 2005]. -/
theorem annualSeries_contract_witness : (2003 : Int) ∈ yearSeq 2000 2005 :=
  ((annualSeries_contract [] "b" "mean" [] 2000 2005).2.1 2003).mpr (by norm_num)

/-- Claim C6: a year whose group of source images is empty, or whose spatial
reduction has no valid pixels, is recorded with value `none` — the series is
total, so no exception interrupts it, and the value is never coerced to 0. -/
theorem annual_null_propagation (ic : List EEImage) (band method : String)
    (region : List Nat) (startYear endYear : Int) :
    ∀ r ∈ annualSeries ic band method region startYear endYear,
      (ic.filter (fun im => im.year = r.year) = [] → r.value = none)
      ∧ (region.filterMap (yearImage ic band method r.year) = [] → r.value = none) := by
  intro r hr
  have hv := annualSeries_mem_value ic band method region startYear endYear r hr
  constructor
  · intro hfil
    rw [hv]
    by_cases hm : method = "sum" <;>
      simp [yearImage, hfil, hm, pixSum, pixMean, pixValsAt, reduceRegionMean,
        filterMap_const_none]
  · intro hred
    rw [hv]
    simp [reduceRegionMean, hred]

/-- Claim C6, witness: the empty series over 2000..2000 yields the single
record with year 2000 and a null value. -/
theorem annual_null_propagation_witness :
    annualSeries ([] : List EEImage) "tp_mm" "sum" [0] 2000 2000 = [⟨2000, none⟩]
    ∧ (⟨2000, (none : Option ℚ)⟩ : AnnualRecord).value = none := by
  have hA : annualSeries ([] : List EEImage) "tp_mm" "sum" [0] 2000 2000
      = [⟨2000, none⟩] := by
    simp [annualSeries, yearSeq_single, yearImage, pixSum, pixValsAt,
      reduceRegionMean, List.filterMap]
  refine ⟨hA, ?_⟩
  have hmem : (⟨2000, (none : Option ℚ)⟩ : AnnualRecord)
      ∈ annualSeries ([] : List EEImage) "tp_mm" "sum" [0] 2000 2000 := by
    rw [hA]; exact List.mem_singleton_self _
  exact (annual_null_propagation [] "tp_mm" "sum" [0] 2000 2000 _ hmem).1 rfl

/-- Claim C7: the trend line over the non-null `(year, value)` pairs of the
annual series has a zero coefficient of determination when fewer than two
non-null points exist, and over the points (2000,1), (2001,2), (2002,3) it
is the line with slope 1, intercept −1999 and R² = 1. -/
theorem annualTrend_spec :
    (∀ rs : List AnnualRecord, (nonNullPairs rs).length < 2 → (annualTrend rs).2.2 = 0)
    ∧ annualTrend [⟨2000, some 1⟩, ⟨2001, some 2⟩, ⟨2002, some 3⟩] = (1, -1999, 1) := by
  constructor
  · intro rs h
    simp [annualTrend, linFit, h]
  · norm_num [annualTrend, nonNullPairs, linFit, List.filterMap_cons]

/-- Claim C7, witness: a series with a single null record has R² = 0. -/
theorem annualTrend_spec_witness : (annualTrend [⟨2000, none⟩]).2.2 = 0 :=
  annualTrend_spec.1 [⟨2000, none⟩] (by norm_num [nonNullPairs])

/-- Claim C10: the temporal reducer of the annual series is the pixel-wise
sum exactly for the method string `sum`; every other method value,
`median` and misspellings included, silently selects the pixel-wise mean,
and no error is raised.  On a two-image year carrying 10 at one pixel, `sum`
yields 20 while `mean` and `median` yield 10. -/
theorem annual_method_selection :
    (∀ (ic : List EEImage) (band method : String) (region : List Nat)
        (startYear endYear : Int), method ≠ "sum" →
        annualSeries ic band method region startYear endYear
          = annualSeries ic band "mean" region startYear endYear)
    ∧ annualSeries icTwo "b" "sum" [0] 2000 2000 = [⟨2000, some 20⟩]
    ∧ annualSeries icTwo "b" "mean" [0] 2000 2000 = [⟨2000, some 10⟩]
    ∧ annualSeries icTwo "b" "median" [0] 2000 2000 = [⟨2000, some 10⟩] := by
  refine ⟨?_, ?_, ?_, ?_⟩
  · intro ic band method region startYear endYear h
    simp [annualSeries, yearImage, h]
  · simp [annualSeries, yearSeq_single, yearImage, icTwo, dupImage, pixSum,
      pixMean, pixValsAt, reduceRegionMean, List.filterMap]
    norm_num
  · simp [annualSeries, yearSeq_single, yearImage, icTwo, dupImage, pixSum,
      pixMean, pixValsAt, reduceRegionMean, List.filterMap]
  · simp [annualSeries, yearSeq_single, yearImage, icTwo, dupImage, pixSum,
      pixMean, pixValsAt, reduceRegionMean, List.filterMap]

/-- Claim C10, witness: the capitalized misspelling `Sum` selects the mean
reducer. -/
theorem annual_method_selection_witness :
    annualSeries icTwo "b" "Sum" [0] 2000 2000
      = annualSeries icTwo "b" "mean" [0] 2000 2000 :=
  annual_method_selection.1 icTwo "b" "Sum" [0] 2000 2000 (by decide)

end ERA5
